import Mathlib

/-!
Verification of the analysis/plotting pipeline in `analysis/analyse.py`
(rustc-perf compilation-phase visualisation).

Shallow embedding conventions:
* A pandas DataFrame row is a record structure; a DataFrame is a `List` of rows.
* Raw CSV numeric values are rationals (`ℚ`).  IEEE undefined results
  (NaN from 0/0 on a zero total, NaN means of empty series) are modelled by
  `Option ℚ`, with `none` standing for an undefined (NaN) value; arithmetic on
  `Option ℚ` propagates `none` exactly as NaN propagates through float
  arithmetic.
* `pandas.Series.mean()` skips NaN entries (skipna default) and returns NaN on
  an empty / all-NaN series: `meanOpt` below.
* `plt.bar(y=.., x=[off], width=[w], color=PALETTE[i], height=h)` is modelled
  as appending a segment record `(y, x, width, colorIdx, height)` to the list
  of drawn segments; the draw order of the list is the call order in the code.
* `pd.melt` followed by `data[data["section"] == s]["Percent"]` selects, for
  the rows of the filtered frame, exactly the values of column `s`; it is
  modelled as the column projection `List.map`.
-/

/-- A normalized data row (the frame produced by the module-level
normalization, consumed by `filter_data` / `plot_bar`).  The six phase
columns are `Option ℚ`: `none` models an IEEE NaN/undefined entry. -/
structure NormRecord where
  benchmark : String
  profile : String
  scenario : String
  kind : String
  frontend : Option ℚ
  backend : Option ℚ
  linker : Option ℚ
  borrowck : Option ℚ
  typeck : Option ℚ
  metadata : Option ℚ
deriving DecidableEq, Repr

/-- A raw data row as read from `results-full.csv` (all six phase durations
are plain numbers). -/
structure RawRecord where
  benchmark : String
  profile : String
  scenario : String
  kind : String
  frontend : ℚ
  backend : ℚ
  linker : ℚ
  borrowck : ℚ
  typeck : ℚ
  metadata : ℚ
deriving DecidableEq, Repr

/-- Columns of the raw frame (spec section 6 order). -/
def rawColumns : List String :=
  ["benchmark", "profile", "scenario", "kind",
   "frontend", "backend", "linker", "borrowck", "typeck", "metadata"]

/-- Columns after `df["total"] = df["frontend"] + df["backend"] + df["linker"]`
(assigning a fresh column appends it). -/
def columnsWithTotal : List String := rawColumns ++ ["total"]

/-- Columns after `df = df.drop(columns=["total"])`. -/
def columnsAfterNormalize : List String :=
  columnsWithTotal.filter (fun c => !(["total"].contains c))

/-- `df["total"] = df["frontend"] + df["backend"] + df["linker"]`, per row. -/
def recordTotal (r : RawRecord) : ℚ := r.frontend + r.backend + r.linker

/-- One normalized field: `(df[key].astype(np.float32) / df["total"]) * 100`.
When the stored total is `0` the IEEE division is undefined (0/0 = NaN for the
zero numerators forced by non-negative durations; x/0 = ±Inf otherwise),
modelled as `none`. -/
def normField (v total : ℚ) : Option ℚ :=
  if total = 0 then none else some (v / total * 100)

/-- The normalization loop applied to one row: each of the six duration
columns is replaced by its percentage of the row's stored total. -/
def normalizeRecord (r : RawRecord) : NormRecord :=
  { benchmark := r.benchmark
    profile := r.profile
    scenario := r.scenario
    kind := r.kind
    frontend := normField r.frontend (recordTotal r)
    backend := normField r.backend (recordTotal r)
    linker := normField r.linker (recordTotal r)
    borrowck := normField r.borrowck (recordTotal r)
    typeck := normField r.typeck (recordTotal r)
    metadata := normField r.metadata (recordTotal r) }

/-- The whole-frame normalization (the column-wise pandas loop is
row-independent: each row's new values depend only on that row). -/
def normalizeData (data : List RawRecord) : List NormRecord :=
  data.map normalizeRecord

/-- `filter_data`: successive boolean-mask filters for the supplied
predicates, in source order (profile, scenario, kind). -/
def filter_data (data : List NormRecord) (profile scenario kind : Option String) :
    List NormRecord :=
  let data := match profile with
    | some p => data.filter (fun r => r.profile == p)
    | none => data
  let data := match scenario with
    | some s => data.filter (fun r => r.scenario == s)
    | none => data
  let data := match kind with
    | some k => data.filter (fun r => r.kind == k)
    | none => data
  data

/-- The benchmark pre-filter `data[data["benchmark"] == benchmark]` used by
`single_bench` (mandatory argument) and `grid` (optional argument). -/
def filterBenchmark (data : List NormRecord) (benchmark : Option String) :
    List NormRecord :=
  match benchmark with
  | some b => data.filter (fun r => r.benchmark == b)
  | none => data

/-- The full Filter/Selector component: the benchmark pre-filter composed
with `filter_data`, giving the four optional exact-match predicates. -/
def filterSelector (data : List NormRecord)
    (benchmark profile scenario kind : Option String) : List NormRecord :=
  filter_data (filterBenchmark data benchmark) profile scenario kind

/-- An omitted predicate imposes no constraint; a supplied one is an
exact-match equality test. -/
def matchesOpt (pred : Option String) (v : String) : Bool :=
  match pred with
  | none => true
  | some p => v == p

/-- The conjunction of the four optional predicates on one row. -/
def rowMatches (benchmark profile scenario kind : Option String)
    (r : NormRecord) : Bool :=
  matchesOpt benchmark r.benchmark && matchesOpt profile r.profile &&
    matchesOpt scenario r.scenario && matchesOpt kind r.kind

/-- NaN-propagating addition on possibly-undefined values. -/
def oadd : Option ℚ → Option ℚ → Option ℚ
  | some a, some b => some (a + b)
  | _, _ => none

/-- `pandas.Series.mean()`: NaN entries are skipped (default `skipna=True`);
the mean of an empty (or all-NaN) series is NaN (`none`). -/
def meanOpt (xs : List (Option ℚ)) : Option ℚ :=
  let vs := xs.filterMap id
  if vs.isEmpty then none else some (vs.sum / vs.length)

/-- One drawn bar segment of the full pipeline: `plt.bar(y=y, x=[x],
width=[width], color=PALETTE[colorIdx], height=height, align="edge")`.
`x` and `width` are `Option ℚ` because NaN means yield NaN-positioned and
NaN-width bars (matplotlib draws them without raising). -/
structure OSeg where
  y : ℚ
  x : Option ℚ
  width : Option ℚ
  colorIdx : Nat
  height : ℚ
deriving DecidableEq, Repr

/-- A drawn bar segment in the NaN-free layout core: all coordinates are
defined numbers. -/
structure Seg where
  y : ℚ
  x : ℚ
  width : ℚ
  colorIdx : Nat
  height : ℚ
deriving DecidableEq, Repr

/-- Outer-layer segments: the full-height bars (`height=height` with
`height = 1` in the source, as opposed to `inner_height = 1 - 1/2`). -/
def outerSegments (segs : List Seg) : List Seg :=
  segs.filter (fun s => s.height == 1)

/-- Inner-layer segments: the reduced-height bars (`inner_height = 1/2`). -/
def innerSegments (segs : List Seg) : List Seg :=
  segs.filter (fun s => s.height == 1/2)

/-- The nested-stack layout core of `plot_bar` (lines 46-64), on defined
(non-NaN) aggregated means.  Returns the segments in draw order together with
the successive values taken by the mutable cursor `fe_base`
(`fe_base = avg_backend + avg_linker`, then `fe_base += avg_borrowck`, then
`fe_base += avg_typeck`; there is no increment after the metadata bar). -/
def layoutSegments (avg_backend avg_linker avg_borrowck avg_typeck avg_metadata : ℚ) :
    List Seg × List ℚ :=
  let fe_base0 := avg_backend + avg_linker
  let fe_base1 := fe_base0 + avg_borrowck
  let fe_base2 := fe_base1 + avg_typeck
  ([⟨0, 0, 100, 0, 1⟩,
    ⟨1/2, fe_base0, avg_borrowck, 3, 1/2⟩,
    ⟨1/2, fe_base1, avg_typeck, 4, 1/2⟩,
    ⟨1/2, fe_base2, avg_metadata, 5, 1/2⟩,
    ⟨0, avg_linker, avg_backend, 1, 1⟩,
    ⟨0, 0, avg_linker, 2, 1⟩],
   [fe_base0, fe_base1, fe_base2])

/-- The five aggregated means computed by `plot_bar` (lines 41-45) from the
filtered frame: melt to long form, then for each section take the mean of its
`Percent` values, i.e. the mean of that column over the filtered rows.
`plot_bar` never computes a frontend mean. -/
def plotBarMeans (data : List NormRecord) (profile scenario kind : Option String) :
    Option ℚ × Option ℚ × Option ℚ × Option ℚ × Option ℚ :=
  let d := filter_data data profile scenario kind
  (meanOpt (d.map (fun r => r.backend)),
   meanOpt (d.map (fun r => r.linker)),
   meanOpt (d.map (fun r => r.borrowck)),
   meanOpt (d.map (fun r => r.typeck)),
   meanOpt (d.map (fun r => r.metadata)))

/-- The full `plot_bar` pipeline: filter, aggregate, then the six `plt.bar`
calls in source order, with NaN propagation through the cursor arithmetic. -/
def plotBarSegments (data : List NormRecord) (profile scenario kind : Option String) :
    List OSeg :=
  let m := plotBarMeans data profile scenario kind
  let avg_backend := m.1
  let avg_linker := m.2.1
  let avg_borrowck := m.2.2.1
  let avg_typeck := m.2.2.2.1
  let avg_metadata := m.2.2.2.2
  let fe_base0 := oadd avg_backend avg_linker
  let fe_base1 := oadd fe_base0 avg_borrowck
  let fe_base2 := oadd fe_base1 avg_typeck
  [⟨0, some 0, some 100, 0, 1⟩,
   ⟨1/2, fe_base0, avg_borrowck, 3, 1/2⟩,
   ⟨1/2, fe_base1, avg_typeck, 4, 1/2⟩,
   ⟨1/2, fe_base2, avg_metadata, 5, 1/2⟩,
   ⟨0, avg_linker, avg_backend, 1, 1⟩,
   ⟨0, some 0, avg_linker, 2, 1⟩]

/-- A legend entry: `mpatches.Patch(color=PALETTE[colorIdx], label=label)`. -/
structure Patch where
  colorIdx : Nat
  label : String
deriving DecidableEq, Repr

/-- `create_bars`: the five fixed legend patches, plus the metadata swatch
exactly when `with_metadata` is true. -/
def create_bars (with_metadata : Bool) : List Patch :=
  let bars : List Patch :=
    [⟨0, "Frontend"⟩, ⟨1, "Backend"⟩, ⟨2, "Linker"⟩, ⟨3, "borrowck"⟩, ⟨4, "typeck"⟩]
  if with_metadata then bars ++ [⟨5, "metadata"⟩] else bars

/-- `single_bench` (its computational content): filter the frame to the
benchmark, run `plot_bar` with the given profile and scenario (no kind
predicate), and build the legend from `create_bars(with_metadata=metadata)`.
Returns (drawn segments, legend patches). -/
def singleBenchRender (data : List NormRecord) (benchmark profile scenario : String)
    (metadata : Bool) : List OSeg × List Patch :=
  let filtered := filterBenchmark data (some benchmark)
  (plotBarSegments filtered (some profile) (some scenario) none,
   create_bars metadata)

/-- One `single_bench(df, name, benchmark, profile=…, scenario=…, metadata=…)`
invocation issued by `single_benchmark`. -/
structure RenderCall where
  name : String
  benchmark : String
  profile : String
  scenario : String
  metadata : Bool
deriving DecidableEq, Repr

/-- `single_benchmark(df, benchmark, metadata=False)`: the four
`single_bench` calls it issues, in source order.  Its own `metadata`
parameter is never read; every call passes `metadata=True`. -/
def single_benchmark (benchmark : String) (metadata : Bool) : List RenderCall :=
  [⟨benchmark ++ "-debug-full", benchmark, "Debug", "Full", true⟩,
   ⟨benchmark ++ "-debug-incr-patched", benchmark, "Debug", "IncrPatched0", true⟩,
   ⟨benchmark ++ "-opt-incr-patched", benchmark, "Opt", "IncrPatched0", true⟩,
   ⟨benchmark ++ "-check-incr-patched", benchmark, "Check", "IncrPatched0", true⟩]

/-- A sample raw record with the spec's concrete durations. -/
def sampleRaw : RawRecord :=
  ⟨"ripgrep", "Debug", "Full", "bin", 60, 30, 10, 20, 25, 5⟩

/-- A raw record whose total duration is zero. -/
def zeroRaw : RawRecord :=
  ⟨"empty-bench", "Check", "Full", "lib", 0, 0, 0, 0, 0, 0⟩

/-- The Filter/Selector equals one pass of the conjunction of the four
optional predicates (the successive boolean-mask filters compose). -/
theorem filterSelector_eq_filter (d : List NormRecord) (b p s k : Option String) :
    filterSelector d b p s k = d.filter (rowMatches b p s k) := by
  have hrm : rowMatches b p s k =
      (fun r => ((matchesOpt b r.benchmark && matchesOpt p r.profile) &&
        matchesOpt s r.scenario) && matchesOpt k r.kind) := rfl
  rw [hrm]
  cases b <;> cases p <;> cases s <;> cases k <;>
    simp [filterSelector, filter_data, filterBenchmark, matchesOpt,
          List.filter_filter, Bool.and_comm, Bool.and_left_comm, Bool.and_assoc]

/-- C1: on the aggregated means backend=30, linker=10, borrowck=20,
typeck=25, metadata=5 the layout engine draws exactly the outer segments
(offset 0, width 100, frontend background), (offset 10, width 30, backend),
(offset 0, width 10, linker) and the inner segments (offset 40, width 20,
borrowck), (offset 60, width 25, typeck), (offset 85, width 5, metadata),
with the cursor `fe_base` taking the values 40, 60, 85, all at most 100. -/
theorem layout_concrete_scenario :
    layoutSegments 30 10 20 25 5 =
      ([⟨0, 0, 100, 0, 1⟩, ⟨1/2, 40, 20, 3, 1/2⟩, ⟨1/2, 60, 25, 4, 1/2⟩,
        ⟨1/2, 85, 5, 5, 1/2⟩, ⟨0, 10, 30, 1, 1⟩, ⟨0, 0, 10, 2, 1⟩],
       [40, 60, 85])
    ∧ outerSegments (layoutSegments 30 10 20 25 5).1 =
        [⟨0, 0, 100, 0, 1⟩, ⟨0, 10, 30, 1, 1⟩, ⟨0, 0, 10, 2, 1⟩]
    ∧ innerSegments (layoutSegments 30 10 20 25 5).1 =
        [⟨1/2, 40, 20, 3, 1/2⟩, ⟨1/2, 60, 25, 4, 1/2⟩, ⟨1/2, 85, 5, 5, 1/2⟩]
    ∧ ∀ v ∈ (layoutSegments 30 10 20 25 5).2, v ≤ 100 := by
  refine ⟨?_, ?_, ?_, ?_⟩ <;>
    norm_num [layoutSegments, outerSegments, innerSegments,
      List.filter_cons, List.filter_nil, beq_iff_eq]

/-- C2: per record the stored total is frontend + backend + linker, each of
the six duration columns becomes `field / total * 100` (defined whenever the
total is nonzero), and the output frame has no `total` column. -/
theorem normalization_contract (data : List RawRecord) (r : RawRecord) :
    normalizeData data = data.map normalizeRecord
    ∧ (r.frontend + r.backend + r.linker ≠ 0 →
        normalizeRecord r =
          ⟨r.benchmark, r.profile, r.scenario, r.kind,
           some (r.frontend / (r.frontend + r.backend + r.linker) * 100),
           some (r.backend / (r.frontend + r.backend + r.linker) * 100),
           some (r.linker / (r.frontend + r.backend + r.linker) * 100),
           some (r.borrowck / (r.frontend + r.backend + r.linker) * 100),
           some (r.typeck / (r.frontend + r.backend + r.linker) * 100),
           some (r.metadata / (r.frontend + r.backend + r.linker) * 100)⟩)
    ∧ "total" ∉ columnsAfterNormalize := by
  refine ⟨rfl, ?_, by decide⟩
  intro h
  simp [normalizeRecord, normField, recordTotal, h]

/-- Witness for C2 at the concrete record (60, 30, 10, 20, 25, 5). -/
theorem normalization_contract_witness :
    sampleRaw.frontend + sampleRaw.backend + sampleRaw.linker ≠ 0
    ∧ normalizeRecord sampleRaw =
        ⟨"ripgrep", "Debug", "Full", "bin",
         some 60, some 30, some 10, some 20, some 25, some 5⟩ := by
  have h := (normalization_contract [] sampleRaw).2.1 (by norm_num [sampleRaw])
  refine ⟨by norm_num [sampleRaw], ?_⟩
  rw [h]
  norm_num [sampleRaw]

/-- C3: a zero total makes all six normalized columns undefined (NaN), and
normalization still processes every other record of the dataset. -/
theorem zero_total_propagates (r : RawRecord) (xs ys : List RawRecord) :
    (r.frontend + r.backend + r.linker = 0 →
      normalizeRecord r =
        ⟨r.benchmark, r.profile, r.scenario, r.kind,
         none, none, none, none, none, none⟩)
    ∧ normalizeData (xs ++ r :: ys) =
        normalizeData xs ++ normalizeRecord r :: normalizeData ys
    ∧ (normalizeData (xs ++ r :: ys)).length = (xs ++ r :: ys).length := by
  refine ⟨?_, by simp [normalizeData], by simp [normalizeData]⟩
  intro h
  simp [normalizeRecord, normField, recordTotal, h]

/-- Witness for C3 at a concrete zero-total record inside a dataset. -/
theorem zero_total_propagates_witness :
    zeroRaw.frontend + zeroRaw.backend + zeroRaw.linker = 0
    ∧ normalizeRecord zeroRaw =
        ⟨"empty-bench", "Check", "Full", "lib",
         none, none, none, none, none, none⟩
    ∧ normalizeData [sampleRaw, zeroRaw] =
        normalizeData [sampleRaw] ++ normalizeRecord zeroRaw :: normalizeData [] := by
  have h := zero_total_propagates zeroRaw [sampleRaw] []
  refine ⟨by norm_num [zeroRaw], ?_, h.2.1⟩
  rw [h.1 (by norm_num [zeroRaw])]
  exact rfl

/-- C4: the Filter/Selector (the benchmark mask of `single_bench`/`grid`
composed with `filter_data`) returns exactly the subsequence of rows
satisfying the conjunction of the supplied predicates; omitted predicates
impose no constraint, and the result is a sublist of the untouched input. -/
theorem filter_conjunction (d : List NormRecord) (b p s k : Option String) :
    filterSelector d b p s k = d.filter (rowMatches b p s k)
    ∧ List.Sublist (filterSelector d b p s k) d := by
  refine ⟨filterSelector_eq_filter d b p s k, ?_⟩
  rw [filterSelector_eq_filter]
  exact List.filter_sublist d

/-- C7: filtering twice with the same predicates equals filtering once. -/
theorem filter_idempotent (d : List NormRecord) (b p s k : Option String) :
    filterSelector (filterSelector d b p s k) b p s k = filterSelector d b p s k := by
  rw [filterSelector_eq_filter, filterSelector_eq_filter, List.filter_filter]
  simp

/-- C5 fails as stated: at the valid, non-overflowing means backend=30,
linker=10, borrowck=20, typeck=25, metadata=5, the outer-layer widths are
100 (frontend background), 30 (backend) and 10 (linker), summing to 140, not
100: the frontend segment is drawn as a full-axis background that the backend
and linker bars overlay. -/
theorem outer_width_sum_counterexample :
    ((20 + 25 + 5 : ℚ) ≤ 100 - (30 + 10))
    ∧ ((outerSegments (layoutSegments 30 10 20 25 5).1).map (fun s => s.width)).sum = 140
    ∧ (140 : ℚ) ≠ 100 := by
  refine ⟨by norm_num, ?_, by norm_num⟩
  norm_num [layoutSegments, outerSegments, List.filter_cons, List.filter_nil, beq_iff_eq]

/-- C5 amended: for every input the outer-layer widths sum to
100 + avg_backend + avg_linker (width-100 background plus the overlaid
backend and linker bars); the outer layer covers the axis span [0,100]
once only because of the overlay, not by partition. -/
theorem outer_width_sum_eq (b l bc tc m : ℚ) :
    ((outerSegments (layoutSegments b l bc tc m).1).map (fun s => s.width)).sum
      = 100 + b + l := by
  norm_num [layoutSegments, outerSegments, List.filter_cons, List.filter_nil, beq_iff_eq]
  ring

/-- C6: under non-negative means with
borrowck + typeck + metadata ≤ 100 − (backend + linker), the inner widths sum
to at most the span remaining after the initial cursor and every inner
segment ends at or before axis position 100; unconditionally, the inner
segments are exactly the raw running-sum values — the engine never clamps. -/
theorem inner_layout_invariant (b l bc tc m : ℚ) :
    (0 ≤ b → 0 ≤ l → 0 ≤ bc → 0 ≤ tc → 0 ≤ m →
      bc + tc + m ≤ 100 - (b + l) →
      ((innerSegments (layoutSegments b l bc tc m).1).map (fun s => s.width)).sum
          ≤ 100 - (b + l)
      ∧ ∀ s ∈ innerSegments (layoutSegments b l bc tc m).1, s.x + s.width ≤ 100)
    ∧ innerSegments (layoutSegments b l bc tc m).1 =
        [⟨1/2, b + l, bc, 3, 1/2⟩, ⟨1/2, b + l + bc, tc, 4, 1/2⟩,
         ⟨1/2, b + l + bc + tc, m, 5, 1/2⟩] := by
  have hinner : innerSegments (layoutSegments b l bc tc m).1 =
      [⟨1/2, b + l, bc, 3, 1/2⟩, ⟨1/2, b + l + bc, tc, 4, 1/2⟩,
       ⟨1/2, b + l + bc + tc, m, 5, 1/2⟩] := by
    norm_num [layoutSegments, innerSegments, List.filter_cons, List.filter_nil, beq_iff_eq]
  refine ⟨?_, hinner⟩
  intro h1 h2 h3 h4 h5 h6
  rw [hinner]
  constructor
  · simp only [List.map_cons, List.map_nil, List.sum_cons, List.sum_nil]
    linarith
  · intro s hs
    simp only [List.mem_cons, List.not_mem_nil, or_false] at hs
    rcases hs with rfl | rfl | rfl <;> simp only [] <;> linarith

/-- Witness for C6 at the means (30, 10, 20, 25, 5). -/
theorem inner_layout_invariant_witness :
    ((innerSegments (layoutSegments 30 10 20 25 5).1).map (fun s => s.width)).sum
        ≤ 100 - (30 + 10 : ℚ)
    ∧ ∀ s ∈ innerSegments (layoutSegments 30 10 20 25 5).1, s.x + s.width ≤ 100 :=
  (inner_layout_invariant 30 10 20 25 5).1 (by norm_num) (by norm_num) (by norm_num)
    (by norm_num) (by norm_num) (by norm_num)

/-- C8 fails as stated: on an empty filtered group the engine draws six
segments but only five have NaN width — the first (the frontend background)
always has the constant width 100. -/
theorem empty_group_counterexample :
    (plotBarSegments ([] : List NormRecord) none none none).map (fun seg => seg.width)
      = [some 100, none, none, none, none, none]
    ∧ ¬ (∀ seg ∈ plotBarSegments ([] : List NormRecord) none none none,
          seg.width = none) := by
  refine ⟨rfl, ?_⟩
  intro h
  exact absurd (h ⟨0, some 0, some 100, 0, 1⟩ (List.mem_cons_self _ _)) (by simp)

/-- C8 amended: on an empty filtered group the five means `plot_bar`
computes (backend, linker, borrowck, typeck, metadata; no frontend mean
exists) are all NaN, and the engine still produces six segments without
raising — five with NaN width and the width-100 frontend background. -/
theorem empty_group_nan (data : List NormRecord) (p s k : Option String)
    (h : filter_data data p s k = []) :
    plotBarMeans data p s k = (none, none, none, none, none)
    ∧ (plotBarSegments data p s k).map (fun seg => seg.width)
        = [some 100, none, none, none, none, none]
    ∧ (plotBarSegments data p s k).length = 6 := by
  have hm : plotBarMeans data p s k = (none, none, none, none, none) := by
    simp [plotBarMeans, h, meanOpt]
  refine ⟨hm, ?_, ?_⟩ <;> simp [plotBarSegments, hm, oadd]

/-- Witness for C8 (amended) at the empty frame with no predicates. -/
theorem empty_group_nan_witness :
    plotBarMeans ([] : List NormRecord) none none none = (none, none, none, none, none)
    ∧ (plotBarSegments ([] : List NormRecord) none none none).map (fun seg => seg.width)
        = [some 100, none, none, none, none, none]
    ∧ (plotBarSegments ([] : List NormRecord) none none none).length = 6 :=
  empty_group_nan [] none none none rfl

/-- C9: the `metadata` flag changes only the legend (appending the metadata
swatch); the drawn segments are identical for both flag values, their palette
indices are always [0, 3, 4, 5, 1, 2], and exactly one drawn segment is the
reduced-height metadata segment (palette index 5). -/
theorem metadata_flag_legend_only (data : List NormRecord) (b p s : String) :
    (singleBenchRender data b p s true).1 = (singleBenchRender data b p s false).1
    ∧ (singleBenchRender data b p s true).2 =
        (singleBenchRender data b p s false).2 ++ [⟨5, "metadata"⟩]
    ∧ ((singleBenchRender data b p s false).1.map (fun seg => seg.colorIdx))
        = [0, 3, 4, 5, 1, 2]
    ∧ ((singleBenchRender data b p s false).1.filter
          (fun seg => seg.colorIdx == 5 && seg.height == 1/2)).length = 1 := by
  refine ⟨rfl, rfl, rfl, ?_⟩
  norm_num [singleBenchRender, plotBarSegments, List.filter_cons, List.filter_nil,
    beq_iff_eq]

/-- C10: `single_benchmark` never reads its own `metadata` parameter: it
issues exactly four renders (Debug/Full, Debug/IncrPatched0,
Opt/IncrPatched0, Check/IncrPatched0), each with `metadata=True`. -/
theorem single_benchmark_ignores_metadata (b : String) (m : Bool) :
    single_benchmark b m = single_benchmark b true
    ∧ (single_benchmark b m).length = 4
    ∧ (single_benchmark b m).map (fun c => (c.profile, c.scenario, c.metadata)) =
        [("Debug", "Full", true), ("Debug", "IncrPatched0", true),
         ("Opt", "IncrPatched0", true), ("Check", "IncrPatched0", true)] :=
  ⟨rfl, rfl, rfl⟩
